import Mathlib

/-!
Verification development for the readme-generator repository.

We shallowly embed the JavaScript source in Lean:
* `src/services/github.js` — the rate-limited fetch client
  (`fetchWithRateLimit`, `updateRateLimit`, `formatResetTime`), base64/utf8
  decoding (`decodeBase64`), file fetching (`fetchFileContent`) and the
  repository-data aggregator (`fetchRepoData`).
* `src/services/readme.js` — prompt compilation (`buildPrompt`,
  `getToneInstructions`) and input validation (`generateReadme`).
* `netlify/functions/create-pr.js` — the five-step PR-creation handler.

Network effects are modelled by oracles: each outbound call consumes the
next element of an oracle `Nat → outcome`, and traces record the requests,
delays and state updates the code performs.  JavaScript `null`/`undefined`
are modelled by `Option`, thrown exceptions by `Except.error` carrying the
error message, and truthiness tests are spelled out at each use site.
-/

namespace ReadmeGen

/-- JavaScript string truthiness for `Option String` values
(`null`/`undefined` and the empty string are falsy). -/
def jsStrTruthy : Option String → Bool
  | none => false
  | some s => s ≠ ""

/-- JavaScript `a || b` for an optional string `a` with default `b`. -/
def jsOrStr (a : Option String) (b : String) : String :=
  match a with
  | none => b
  | some s => if s = "" then b else s

/-- JavaScript `parseInt(s, 10)`: skips leading whitespace, accepts an
optional sign, and parses the longest leading digit run; `none` models
`NaN` (no digits at all). -/
def jsParseInt (s : String) : Option Int :=
  let core : List Char → Option Nat := fun cs =>
    let ds := cs.takeWhile Char.isDigit
    if ds.isEmpty then none
    else some (ds.foldl (fun a c => a * 10 + (c.toNat - 48)) 0)
  match s.toList.dropWhile Char.isWhitespace with
  | '-' :: rest => (core rest).map (fun n => -(n : Int))
  | '+' :: rest => (core rest).map (fun n => (n : Int))
  | cs => (core cs).map (fun n => (n : Int))

/-- A JavaScript `Date` value: either a valid instant (epoch milliseconds)
or an `Invalid Date` (whose comparisons are all false). -/
inductive JsDate where
  | invalid : JsDate
  | at : Int → JsDate
deriving Repr, DecidableEq

/-- `now < d` for a date object `d` (false when `d` is an invalid date,
because comparisons with `NaN` are false). -/
def JsDate.nowBefore (now : Int) : JsDate → Bool
  | .invalid => false
  | .at ms => now < ms

/- ===== src/services/github.js ===== -/

/-- The rate-limit headers read from a GitHub API response
(`x-ratelimit-remaining` / `x-ratelimit-reset`); `none` models an absent
header (`headers.get` returning `null`). -/
structure RespHeaders where
  xRatelimitRemaining : Option String
  xRatelimitReset : Option String
deriving Repr, DecidableEq

/-- The module-level `rateLimit` record of `github.js`.
`remaining = none` models `NaN` (a failed `parseInt`);
`reset = none` models `null`. -/
structure RateLimit where
  remaining : Option Int
  reset : Option JsDate
deriving Repr, DecidableEq

/-- The initial value of the `rateLimit` module variable. -/
def initialRateLimit : RateLimit := { remaining := some 6, reset := none }

/-- `updateRateLimit(headers)`: when the `x-ratelimit-remaining` header is
present, overwrite the whole record with the parsed header values
(`reset ? new Date(parseInt(reset, 10) * 1000) : null`); otherwise leave
the record unchanged. -/
def updateRateLimit (headers : RespHeaders) (rl : RateLimit) : RateLimit :=
  match headers.xRatelimitRemaining with
  | none => rl
  | some remaining =>
    let newRemaining := jsParseInt remaining
    let newReset : Option JsDate :=
      match headers.xRatelimitReset with
      | none => none
      | some r =>
        if r = "" then none
        else
          match jsParseInt r with
          | none => some .invalid
          | some v => some (.at (v * 1000))
    { remaining := newRemaining, reset := newReset }

/-- `Math.ceil (a / b)` for integers, `b > 0` (JavaScript division is
real-valued, so the quotient is rounded towards plus infinity). -/
def ceilDiv (a b : Int) : Int := -((-a).fdiv b)

/-- `formatResetTime(resetTime)` evaluated at current time `now`
(milliseconds): human-readable time until the rate limit resets. -/
def formatResetTime (resetMs now : Int) : String :=
  let diffMs := resetMs - now
  let diffMins := ceilDiv diffMs 60000
  if diffMins ≤ 1 then "less than a minute"
  else if diffMins < 60 then toString diffMins ++ " minute(s)"
  else toString (ceilDiv diffMins 60) ++ " hour(s)"

/-- `remaining <= 0` in JavaScript (`false` when `remaining` is `NaN`). -/
def remainingLeZero : Option Int → Bool
  | none => false
  | some v => v ≤ 0

/-- The guard of the pre-request short-circuit in `fetchWithRateLimit`:
`rateLimit.remaining <= 0 && rateLimit.reset && new Date() < rateLimit.reset`. -/
def rateLimitExceeded (rl : RateLimit) (now : Int) : Bool :=
  remainingLeZero rl.remaining &&
    (match rl.reset with
     | none => false
     | some d => JsDate.nowBefore now d)

/-- The message thrown by the pre-request short-circuit.  It is only
reachable when `rl.reset = some (.at ms)` with `now < ms`; the other
branches are supplied for totality. -/
def rateLimitExceededMsg (rl : RateLimit) (now : Int) : String :=
  let waitTime :=
    match rl.reset with
    | some (.at ms) => formatResetTime ms now
    | _ => "NaN hour(s)"
  "GitHub API rate limit exceeded. Try again in " ++ waitTime ++ "."

/-- `response.ok`: status in the 200–299 range. -/
def respOk (status : Nat) : Bool := 200 ≤ status && status ≤ 299

/-- The generic error message
`GitHub API error: status - (errorBody?.message || "Unknown error")`. -/
def apiErrorMsg (status : Nat) (message : Option String) : String :=
  "GitHub API error: " ++ toString status ++ " - " ++ jsOrStr message "Unknown error"

/-- The outcome of one attempted `fetch` in `fetchWithRateLimit`:
either the promise rejects (`netError`, with the JavaScript error's `name`
and `message`), or a response arrives, carrying its status, its rate-limit
headers, its parsed JSON body `body : B` (used on success) and
`message`, the `message` field of the parsed error body
(`errorBody?.message`, used in the generic error text). -/
inductive NetOutcome (B : Type) where
  | netError (name : String) (msg : String)
  | resp (status : Nat) (headers : RespHeaders) (body : B) (message : Option String)

/-- A trace of one call to `fetchWithRateLimit`: the returned or thrown
result, the final value of the shared `rateLimit` state, how many network
requests were issued, and the backoff delays (ms) that were awaited. -/
structure FetchTrace (B : Type) where
  result : Except String B
  rl : RateLimit
  calls : Nat
  delays : List Nat

/-- How one attempt of `fetchWithRateLimit` handles its fetch outcome:
either the call ends now (`done`, with the value returned or the error
thrown, and the rate-limit state after `updateRateLimit`), or the failure
is transient (`transient`: `status >= 500` or a network `TypeError`) and
the source retries when retries remain, surfacing `fallback` — the
error this attempt would throw — once they are exhausted. -/
inductive FetchStep (B : Type) where
  | done (result : Except String B) (rl : RateLimit)
  | transient (fallback : Except String B) (rl : RateLimit)

/-- The per-attempt branch order of `fetchWithRateLimit`, exactly as in
the source: for a response, `updateRateLimit` always runs first, then
`response.ok`, then the 404 / 403 (with the `x-ratelimit-remaining` probe)
/ 401 translations, then `status >= 500` (transient), then the generic
API error; a rejected fetch is transient exactly when its error's `name`
is `"TypeError"`, and is otherwise rethrown. -/
def classifyOutcome {B : Type} (outcome : NetOutcome B) (rl : RateLimit) : FetchStep B :=
  match outcome with
  | .netError name msg =>
    if name == "TypeError" then .transient (.error msg) rl
    else .done (.error msg) rl
  | .resp status headers body message =>
    let rl2 := updateRateLimit headers rl
    if respOk status then
      .done (.ok body) rl2
    else if status == 404 then
      .done (.error "Repository not found. Make sure it exists and is public.") rl2
    else if status == 403 then
      if headers.xRatelimitRemaining == some "0" then
        .done (.error "GitHub API rate limit exceeded. Please wait before trying again.") rl2
      else
        .done (.error "Access forbidden. The repository may be private.") rl2
    else if status == 401 then
      .done (.error "Authentication failed. Please check your GitHub token.") rl2
    else if 500 ≤ status then
      .transient (.error (apiErrorMsg status message)) rl2
    else
      .done (.error (apiErrorMsg status message)) rl2

/-- `fetchWithRateLimit(url, options, retries)` from `github.js`.

The network is an oracle: attempt number `i` observes `oracle i`; `now` is
the current time in epoch milliseconds and advances by the 1000 ms backoff
delay on each retry.  The pre-request rate-limit short-circuit issues no
call; otherwise one call is issued and handled by `classifyOutcome`:
a transient failure with retries remaining sleeps 1000 ms and retries with
one retry fewer, and a transient failure with no retries left surfaces
this attempt's own error. -/
def fetchWithRateLimit {B : Type} (oracle : Nat → NetOutcome B) (now : Int)
    (i : Nat) (rl : RateLimit) (retries : Nat) : FetchTrace B :=
  if rateLimitExceeded rl now then
    { result := .error (rateLimitExceededMsg rl now), rl := rl, calls := 0, delays := [] }
  else
    match classifyOutcome (oracle i) rl, retries with
    | .done res rl2, _ => { result := res, rl := rl2, calls := 1, delays := [] }
    | .transient fallback rl2, 0 =>
      { result := fallback, rl := rl2, calls := 1, delays := [] }
    | .transient _ rl2, r + 1 =>
      let t := fetchWithRateLimit oracle (now + 1000) (i + 1) rl2 r
      { result := t.result, rl := t.rl, calls := t.calls + 1, delays := 1000 :: t.delays }

/-- The value of a base64 alphabet character; `none` for characters
outside the alphabet (ignored by Node's base64 decoder). -/
def base64Val (c : Char) : Option Nat :=
  if 'A' ≤ c && c ≤ 'Z' then some (c.toNat - 65)
  else if 'a' ≤ c && c ≤ 'z' then some (c.toNat - 97 + 26)
  else if '0' ≤ c && c ≤ '9' then some (c.toNat - 48 + 52)
  else if c = '+' then some 62
  else if c = '/' then some 63
  else none

/-- Packs a list of 6-bit base64 values into bytes, four values to three
bytes; a trailing pair yields one byte, a trailing triple two bytes, and a
lone trailing value is dropped. -/
def base64Groups : List Nat → List Nat
  | a :: b :: c :: d :: rest =>
    (a * 4 + b / 16) :: ((b % 16) * 16 + c / 4) :: ((c % 4) * 64 + d) :: base64Groups rest
  | [a, b] => [a * 4 + b / 16]
  | [a, b, c] => [a * 4 + b / 16, (b % 16) * 16 + c / 4]
  | _ => []

/-- The Unicode replacement character emitted for malformed UTF-8. -/
def replacementChar : Char := Char.ofNat 0xFFFD

/-- Is `b` a UTF-8 continuation byte (`10xxxxxx`)? -/
def isCont (b : Nat) : Bool := 128 ≤ b && b ≤ 191

/-- UTF-8 decoding of a byte list (the `toString("utf-8")` step of
`decodeBase64`), emitting a replacement character for malformed
sequences.  `fuel` is an upper bound on the number of bytes left, so the
recursion is structural (each step consumes at least one byte). -/
def utf8DecodeAux : Nat → List Nat → List Char
  | 0, _ => []
  | _, [] => []
  | fuel + 1, b :: rest =>
    if b < 128 then Char.ofNat b :: utf8DecodeAux fuel rest
    else if b < 192 then replacementChar :: utf8DecodeAux fuel rest
    else if b < 224 then
      match rest with
      | b2 :: rest2 =>
        if isCont b2 then
          let cp := (b - 192) * 64 + (b2 - 128)
          (if cp < 128 then replacementChar else Char.ofNat cp) :: utf8DecodeAux fuel rest2
        else replacementChar :: utf8DecodeAux fuel rest
      | [] => [replacementChar]
    else if b < 240 then
      match rest with
      | b2 :: b3 :: rest3 =>
        if isCont b2 && isCont b3 then
          let cp := (b - 224) * 4096 + (b2 - 128) * 64 + (b3 - 128)
          (if cp < 2048 || (55296 ≤ cp && cp ≤ 57343) then replacementChar
           else Char.ofNat cp) :: utf8DecodeAux fuel rest3
        else replacementChar :: utf8DecodeAux fuel rest
      | _ => replacementChar :: utf8DecodeAux fuel rest
    else if b < 248 then
      match rest with
      | b2 :: b3 :: b4 :: rest4 =>
        if isCont b2 && isCont b3 && isCont b4 then
          let cp := (b - 240) * 262144 + (b2 - 128) * 4096 + (b3 - 128) * 64 + (b4 - 128)
          (if cp < 65536 || 1114111 < cp then replacementChar
           else Char.ofNat cp) :: utf8DecodeAux fuel rest4
        else replacementChar :: utf8DecodeAux fuel rest
      | _ => replacementChar :: utf8DecodeAux fuel rest
    else replacementChar :: utf8DecodeAux fuel rest

/-- UTF-8 decoding of a byte list. -/
def utf8Decode (bs : List Nat) : List Char := utf8DecodeAux bs.length bs

/-- `decodeBase64(base64Content)`: `Buffer.from(s, "base64").toString("utf-8")` —
base64-decode (ignoring characters outside the alphabet) and then decode
the bytes as UTF-8. -/
def decodeBase64 (base64Content : String) : String :=
  String.mk (utf8Decode (base64Groups (base64Content.toList.filterMap base64Val)))

/-- The parsed JSON body of a `GET /repos/o/r/contents/path` response:
only its `content` field is consumed (`none` models a missing field). -/
structure FileData where
  content : Option String
deriving Repr, DecidableEq

/-- `data.content.replace(/\n/g, "")`. -/
def removeNewlines (s : String) : String := String.mk (s.toList.filter (· ≠ '\n'))

/-- `fetchFileContent(owner, repo, path)`, applied to the settled outcome
`res` of its inner `fetchWithRateLimit` call: any thrown error is caught
and turned into `null`; a missing or empty `content` field yields `null`;
otherwise the base64 payload is stripped of newlines and decoded. -/
def fetchFileContent (res : Except String FileData) : Option String :=
  match res with
  | .error _ => none
  | .ok data =>
    match data.content with
    | none => none
    | some c => if c = "" then none else some (decodeBase64 (removeNewlines c))

/-- The `license` field of the repo-metadata JSON. -/
structure LicenseJson where
  spdxId : Option String
  name : Option String
deriving Repr, DecidableEq

/-- The fields of the `GET /repos/owner/repo` JSON body that
`fetchRepoData` consumes. -/
structure RepoJson where
  name : String
  fullName : String
  description : Option String
  ownerLogin : String
  stargazersCount : Nat
  forksCount : Nat
  watchersCount : Nat
  openIssuesCount : Nat
  license : Option LicenseJson
  topics : Option (List String)
  homepage : Option String
  defaultBranch : String
  createdAt : String
  updatedAt : String
deriving Repr, DecidableEq

/-- `repoData.license?.spdx_id || repoData.license?.name`. -/
def licenseField (l : Option LicenseJson) : Option String :=
  match l with
  | none => none
  | some lj => if jsStrTruthy lj.spdxId then lj.spdxId else lj.name

/-- One entry of the recursive git tree listing. -/
structure TreeItem where
  type : String
  path : String
deriving Repr, DecidableEq

/-- The parsed body of the recursive-tree response; `tree = none` models a
missing `tree` field. -/
structure TreeJson where
  tree : Option (List TreeItem)
deriving Repr, DecidableEq

/-- The `RepositorySnapshot` returned by `fetchRepoData`.  `configFiles`
is the insertion-ordered association list built from the fan-out. -/
structure RepoData where
  name : String
  fullName : String
  description : Option String
  owner : String
  stars : Nat
  forks : Nat
  watchers : Nat
  openIssues : Nat
  license : Option String
  topics : List String
  homepage : Option String
  defaultBranch : String
  createdAt : String
  updatedAt : String
  languages : List (String × Nat)
  files : List String
  directories : List String
  configFiles : List (String × String)
deriving Repr, DecidableEq

/-- The fixed allow-list `configPaths` of well-known manifest names. -/
def configPaths : List String :=
  ["package.json", "requirements.txt", "Cargo.toml", "pyproject.toml",
   "go.mod", "composer.json", "Gemfile", "pom.xml", "build.gradle",
   "setup.py", "CMakeLists.txt", "Makefile"]

/-- The settled outcomes of the network calls `fetchRepoData` makes: the
repo-metadata, languages and recursive-tree fetches, and for each path the
outcome of the contents fetch inside `fetchFileContent`. -/
structure RepoFetchOutcomes where
  repoRes : Except String RepoJson
  langRes : Except String (List (String × Nat))
  treeRes : Except String TreeJson
  fileRes : String → Except String FileData

/-- The `try`/`catch` block around the recursive-tree fetch: on a thrown
error or a missing `tree` field the initial `files = []`,
`directories = []` are kept; otherwise blobs (capped at 150) and trees
(capped at 50) are projected to their paths. -/
def treeLists (treeRes : Except String TreeJson) : List String × List String :=
  match treeRes with
  | .error _ => ([], [])
  | .ok tree =>
    match tree.tree with
    | none => ([], [])
    | some items =>
      (((items.filter (fun item => item.type = "blob")).map (fun item => item.path)).take 150,
       ((items.filter (fun item => item.type = "tree")).map (fun item => item.path)).take 50)

/-- The config-file fan-out of `fetchRepoData`: every allow-listed path
present in `files` is fetched (each through `fetchFileContent`, which
swallows its own failures), and the truthy (non-null, non-empty) contents
are collected in path order into the `configFiles` association list. -/
def collectConfigFiles (files : List String)
    (fileRes : String → Except String FileData) : List (String × String) :=
  ((configPaths.filter (fun path => files.contains path)).map
      (fun path => (path, fetchFileContent (fileRes path)))).filterMap
    (fun pc =>
      match pc.2 with
      | some content => if content = "" then none else some (pc.1, content)
      | none => none)

/-- `fetchRepoData(owner, repo, onStageChange)` over the outcome oracle
`o`.  The repo-metadata and languages fetches are fatal (rethrown); the
tree fetch (`treeLists`) is non-fatal; the config fan-out
(`collectConfigFiles`) swallows per-file failures. -/
def fetchRepoData (o : RepoFetchOutcomes) : Except String RepoData := do
  let repoData ← o.repoRes
  let languages ← o.langRes
  let fd := treeLists o.treeRes
  let files := fd.1
  let directories := fd.2
  let configFiles := collectConfigFiles files o.fileRes
  .ok { name := repoData.name, fullName := repoData.fullName,
        description := repoData.description, owner := repoData.ownerLogin,
        stars := repoData.stargazersCount, forks := repoData.forksCount,
        watchers := repoData.watchersCount, openIssues := repoData.openIssuesCount,
        license := licenseField repoData.license,
        topics := repoData.topics.getD [],
        homepage := repoData.homepage, defaultBranch := repoData.defaultBranch,
        createdAt := repoData.createdAt, updatedAt := repoData.updatedAt,
        languages := languages, files := files, directories := directories,
        configFiles := configFiles }

/- ===== src/services/readme.js ===== -/

/-- The `sectionDescriptions` lookup table of `buildPrompt` (`none`
models an id absent from the object). -/
def sectionDescriptions (s : String) : Option String :=
  if s = "badges" then some "Badges (stars, forks, license, language shields.io badges)"
  else if s = "features" then some "Features section highlighting key capabilities"
  else if s = "installation" then some "Installation instructions with commands"
  else if s = "usage" then some "Usage examples with code snippets"
  else if s = "techStack" then some "Tech stack / dependencies list"
  else if s = "apiReference" then some "API Reference with endpoints or methods"
  else if s = "configuration" then some "Configuration options and environment variables"
  else if s = "testing" then some "Testing instructions and commands"
  else if s = "roadmap" then some "Roadmap with planned features"
  else if s = "faq" then some "FAQ section with common questions"
  else if s = "contributing" then some "Contributing guidelines"
  else if s = "security" then some "Security policy and reporting vulnerabilities"
  else if s = "license" then some "License section"
  else none

/-- The requested-sections phrase of `buildPrompt`:
`enabledSections.map(s => sectionDescriptions[s]).filter(Boolean).join(", ")`. -/
def requestedSectionsOf (enabledSections : List String) : String :=
  String.intercalate ", "
    ((enabledSections.filterMap sectionDescriptions).filter (fun d => d ≠ ""))

/-- The language list of `buildPrompt`: entries sorted descending by byte
count (stable, as `Array.prototype.sort`), rendered `lang: n bytes` and
comma-joined. -/
def languageListOf (languages : List (String × Nat)) : String :=
  String.intercalate ", "
    ((languages.mergeSort (fun a b => decide (b.2 ≤ a.2))).map
      (fun lb => lb.1 ++ ": " ++ toString lb.2 ++ " bytes"))

/-- The per-file truncation of `buildPrompt`:
`content.length > 2000 ? content.substring(0, 2000) + "\n... (truncated)" : content`. -/
def truncateConfig (content : String) : String :=
  if 2000 < content.length then content.take 2000 ++ "\n... (truncated)"
  else content

/-- The `configSummary` of `buildPrompt`: each config file rendered with a
`--- file ---` delimiter above its (possibly truncated) content. -/
def configSummaryOf (configFiles : List (String × String)) : String :=
  String.intercalate "\n\n"
    (configFiles.map (fun fc => "--- " ++ fc.1 ++ " ---\n" ++ truncateConfig fc.2))

/-- The root-files line: paths that contain no `/`, comma-joined. -/
def rootFilesOf (files : List String) : String :=
  String.intercalate ", " (files.filter (fun f => !(f.contains '/')))

/-- One entry of the `toneGuides` object in `getToneInstructions`. -/
structure ToneGuide where
  style : String
  guidelines : List String
deriving Repr, DecidableEq

/-- `toneGuides.professional`. -/
def professionalGuide : ToneGuide :=
  { style := "formal, polished, and business-appropriate",
    guidelines :=
      ["Use clear, precise language without being overly casual",
       "Maintain a confident, authoritative voice",
       "Avoid slang, jokes, or overly casual expressions",
       "Structure information in a logical, organized manner",
       "Use complete sentences and proper grammar throughout"] }

/-- `toneGuides.friendly`. -/
def friendlyGuide : ToneGuide :=
  { style := "warm, approachable, and conversational",
    guidelines :=
      ["Use a welcoming, inclusive tone that makes readers feel at ease",
       "Add encouraging language like 'Let's get started!' or 'You're going to love this'",
       "Use contractions naturally (we're, you'll, it's)",
       "Include friendly calls-to-action",
       "Make complex topics feel accessible and fun"] }

/-- `toneGuides.technical`. -/
def technicalGuide : ToneGuide :=
  { style := "detailed, precise, and developer-focused",
    guidelines :=
      ["Include specific technical details, types, and parameters",
       "Use proper technical terminology without oversimplifying",
       "Provide comprehensive code examples with explanations",
       "Document edge cases, errors, and expected behaviors",
       "Assume the reader has technical expertise"] }

/-- `toneGuides.minimal`. -/
def minimalGuide : ToneGuide :=
  { style := "brief, concise, and to-the-point",
    guidelines :=
      ["Use the fewest words possible while remaining clear",
       "Avoid unnecessary adjectives and filler phrases",
       "Prefer bullet points over paragraphs where appropriate",
       "Skip lengthy explanations—just the essentials",
       "Every sentence should provide direct value"] }

/-- The `toneGuides` object lookup. -/
def toneGuides (tone : String) : Option ToneGuide :=
  if tone = "professional" then some professionalGuide
  else if tone = "friendly" then some friendlyGuide
  else if tone = "technical" then some technicalGuide
  else if tone = "minimal" then some minimalGuide
  else none

/-- `getToneInstructions(tone)`: `toneGuides[tone] || toneGuides.professional`,
rendered into the tone block. -/
def getToneInstructions (tone : String) : String :=
  let selected := (toneGuides tone).getD professionalGuide
  "\nWRITING TONE: " ++ selected.style.toUpper ++ "\n\nTone Guidelines:\n" ++
    String.intercalate "\n" (selected.guidelines.map (fun g => "- " ++ g)) ++ "\n"

/-- The badge-style instruction block of `buildPrompt`. -/
def badgeInstructionsOf (badgeStyle fullName : String) : String :=
  "\nBADGE STYLE: " ++ badgeStyle ++
  "\nWhen generating shields.io badges, use the style parameter: ?style=" ++ badgeStyle ++
  "\nExample format: ![Stars](https://img.shields.io/github/stars/" ++ fullName ++
  "?style=" ++ badgeStyle ++ ")\n"

/-- The emoji instruction block of `buildPrompt`. -/
def emojiInstructionsOf (useEmojis : Bool) : String :=
  if useEmojis then
    "\nEMOJI FORMATTING: ENABLED\nAdd relevant emojis to section headers to make them visually engaging.\nExamples:\n- ## 🚀 Features\n- ## 📦 Installation  \n- ## 💻 Usage\n- ## 🛠️ Tech Stack\n- ## 📖 API Reference\n- ## ⚙️ Configuration\n- ## 🧪 Testing\n- ## 🗺️ Roadmap\n- ## ❓ FAQ\n- ## 🤝 Contributing\n- ## 🔒 Security\n- ## 📄 License\n"
  else
    "\nEMOJI FORMATTING: DISABLED\nDo NOT use any emojis in section headers. Keep headers plain text only.\nExample: \"## Features\" not \"## 🚀 Features\"\n"

/-- The table-of-contents instruction block of `buildPrompt`. -/
def tocInstructionsOf (includeToc useEmojis : Bool) : String :=
  if includeToc then
    "\nTABLE OF CONTENTS: ENABLED\nInclude a Table of Contents section immediately after the project title/badges.\nFormat it as a bulleted list with markdown anchor links to each section.\n\nCRITICAL: GitHub anchor format rules:\n- Convert to lowercase\n- Replace spaces with hyphens\n- Remove special characters except hyphens\n" ++
    (if useEmojis then
      "- For headers with emojis like \"## 🚀 Features\", the anchor becomes \"#-features\" (emoji is removed, leaving a leading hyphen)\n- Example TOC for emoji headers:\n  - [🚀 Features](#-features)\n  - [📦 Installation](#-installation)\n  - [💻 Usage](#-usage)"
    else
      "- Example TOC:\n  - [Features](#features)\n  - [Installation](#installation)\n  - [Usage](#usage)") ++
    "\n\nMake sure the anchor links EXACTLY match how GitHub will render them.\n"
  else ""

/-- `buildPrompt(repoData, enabledSections, tone, badgeStyle, useEmojis,
includeToc)`: the complete prompt string, assembled exactly as the
template literal in the source (`||` defaults spelled out per field). -/
def buildPrompt (repoData : RepoData) (enabledSections : List String)
    (tone badgeStyle : String) (useEmojis includeToc : Bool) : String :=
  let requestedSections := requestedSectionsOf enabledSections
  let languageList := languageListOf repoData.languages
  let configSummary := configSummaryOf repoData.configFiles
  let rootFiles := rootFilesOf repoData.files
  let topDirectories := rootFilesOf repoData.directories
  let toneInstructions := getToneInstructions tone
  let badgeInstructions := badgeInstructionsOf badgeStyle repoData.fullName
  let emojiInstructions := emojiInstructionsOf useEmojis
  let tocInstructions := tocInstructionsOf includeToc useEmojis
  let topicsJoined := String.intercalate ", " repoData.topics
  "Generate a professional README.md file for this GitHub repository.\n\nREPOSITORY INFO:\n- Name: " ++
  repoData.name ++
  "\n- Full name: " ++ repoData.fullName ++
  "\n- Description: " ++ jsOrStr repoData.description "No description provided" ++
  "\n- Owner: " ++ repoData.owner ++
  "\n- Stars: " ++ toString repoData.stars ++
  "\n- Forks: " ++ toString repoData.forks ++
  "\n- License: " ++ jsOrStr repoData.license "Not specified" ++
  "\n- Topics: " ++ (if topicsJoined = "" then "None" else topicsJoined) ++
  "\n- Homepage: " ++ jsOrStr repoData.homepage "None" ++
  "\n- Default branch: " ++ repoData.defaultBranch ++
  "\n\nLANGUAGES:\n" ++ (if languageList = "" then "Not available" else languageList) ++
  "\n\nROOT FILES:\n" ++ (if rootFiles = "" then "Not available" else rootFiles) ++
  "\n\nTOP-LEVEL DIRECTORIES:\n" ++ (if topDirectories = "" then "Not available" else topDirectories) ++
  "\n\nCONFIG FILES:\n" ++ (if configSummary = "" then "None found" else configSummary) ++
  "\n\nREQUESTED SECTIONS (in order): " ++ requestedSections ++ "\n" ++
  toneInstructions ++ badgeInstructions ++ emojiInstructions ++ tocInstructions ++
  "\nINSTRUCTIONS:\n1. Generate ONLY the sections requested above, IN THE EXACT ORDER LISTED\n2. Make it professional and well-formatted\n3. Infer the project's purpose from the available information\n4. For installation, use appropriate commands based on the detected package manager/language\n5. For usage, provide realistic examples based on what the project appears to do\n6. Use shields.io badge format if badges are requested, with the specified style parameter\n7. For API reference, infer endpoints or methods from the codebase structure\n8. For configuration, list environment variables or config options if detectable\n9. IMPORTANT: Follow the tone guidelines strictly throughout the entire README\n10. Output ONLY the raw markdown, no explanations or code fences"

/-- One element of the `sections` array passed to `generateReadme`. -/
structure SectionOpt where
  id : String
  enabled : Bool
deriving Repr, DecidableEq

/-- The `sections` argument of `generateReadme` as a JavaScript value:
either an array or something `Array.isArray` rejects. -/
inductive SectionsArg where
  | arr (sections : List SectionOpt)
  | notArray
deriving Repr, DecidableEq

/-- The validation and prompt-building phase of `generateReadme(repoData,
sections, tone, badgeStyle, useEmojis, includeToc)` — everything that runs
before the `fetch` to `/.netlify/functions/generate-readme`.  `repoData =
none` models a missing record and an empty `name` is falsy; a returned
`Except.ok prompt` is exactly the state in which the network request is
then issued with that prompt. -/
def generateReadme (repoData : Option RepoData) (sections : SectionsArg)
    (tone badgeStyle : String) (useEmojis includeToc : Bool) : Except String String :=
  match repoData with
  | none => .error "Invalid repository data provided"
  | some rd =>
    if rd.name = "" then .error "Invalid repository data provided"
    else
      match sections with
      | .notArray => .error "Sections must be an array"
      | .arr secs =>
        let enabledSections := (secs.filter (fun s => s.enabled)).map (fun s => s.id)
        if enabledSections.isEmpty then .error "At least one section must be enabled"
        else .ok (buildPrompt rd enabledSections tone badgeStyle useEmojis includeToc)

/-- How many network requests to the generation backend a call to
`generateReadme` issues: one after successful validation, zero when a
validation error is thrown first. -/
def generateReadmeRequests (repoData : Option RepoData) (sections : SectionsArg)
    (tone badgeStyle : String) (useEmojis includeToc : Bool) : Nat :=
  match generateReadme repoData sections tone badgeStyle useEmojis includeToc with
  | .ok _ => 1
  | .error _ => 0

/- ===== netlify/functions/create-pr.js ===== -/

/-- The fields of a GitHub API JSON body that the PR handler reads:
`data.object.sha` (step 1), `data.sha` (step 3, `none` models a missing
field) and `data.number` / `data.html_url` (step 5). -/
structure GHData where
  objectSha : String := ""
  sha : Option String := none
  number : Nat := 0
  htmlUrl : String := ""
deriving Repr, DecidableEq

/-- The outcome of one `githubFetch` call: an HTTP response (any status;
`githubFetch` itself never throws on an error status) or a rejected
`fetch` whose exception propagates to the handler's top-level `catch`. -/
inductive GHOutcome where
  | resp (status : Nat) (data : GHData)
  | thrown (msg : String)
deriving Repr, DecidableEq

/-- An outbound GitHub request issued by the handler (method and URL). -/
structure Req where
  method : String
  url : String
deriving Repr, DecidableEq

/-- The parsed JSON request body of the handler; each field `none` models
a missing property. -/
structure PrBody where
  owner : Option String
  repo : Option String
  content : Option String
  defaultBranch : Option String
deriving Repr, DecidableEq

/-- The result of `JSON.parse(event.body || "{}")`. -/
inductive BodyParse where
  | parsed (b : PrBody)
  | parseError
deriving Repr, DecidableEq

/-- The JSON body of the handler's HTTP response, restricted to the fields
the handler actually sets (the `details` diagnostic string and `requestId`
are not modelled). -/
structure HandlerResponse where
  statusCode : Nat
  error : Option String := none
  sessionExpired : Bool := false
  success : Bool := false
  prUrl : Option String := none
  prNumber : Option Nat := none
  branch : Option String := none
deriving Repr, DecidableEq

/-- A trace of one handler invocation: the HTTP response and the GitHub
requests issued, in order. -/
structure HandlerTrace where
  response : HandlerResponse
  requests : List Req
deriving Repr, DecidableEq

/-- The response built by the handler's top-level `catch`. -/
def internalError : HandlerResponse :=
  { statusCode := 500, error := some "Internal server error" }

/-- `exports.handler(event)` of `create-pr.js`.

`token` is the result of `getTokenFromSession` (session decryption is an
external collaborator, so the extracted token is a parameter); `body` is
the result of parsing the request body; `now` is `Date.now()` when the
branch name is minted; `oracle k` is the outcome of the k-th `githubFetch`
call.  A `thrown` outcome models a rejected `fetch` inside `githubFetch`,
which escapes to the top-level `catch` and produces the 500 response. -/
def handler (httpMethod : String) (token : Option String) (body : BodyParse)
    (now : Int) (oracle : Nat → GHOutcome) : HandlerTrace :=
  if httpMethod = "OPTIONS" then { response := { statusCode := 204 }, requests := [] }
  else if httpMethod ≠ "POST" then
    { response := { statusCode := 405, error := some "Method not allowed" }, requests := [] }
  else if !(jsStrTruthy token) then
    { response := { statusCode := 401,
                    error := some "Not authenticated. Please sign in with GitHub." },
      requests := [] }
  else
    match body with
    | .parseError =>
      { response := { statusCode := 400, error := some "Invalid JSON in request body" },
        requests := [] }
    | .parsed b =>
      let missingFields :=
        (if jsStrTruthy b.owner then [] else ["owner"]) ++
        (if jsStrTruthy b.repo then [] else ["repo"]) ++
        (if jsStrTruthy b.content then [] else ["content"])
      if missingFields ≠ [] then
        { response := { statusCode := 400,
                        error := some ("Missing required fields: " ++
                          String.intercalate ", " missingFields) },
          requests := [] }
      else
        let owner := b.owner.getD ""
        let repo := b.repo.getD ""
        let repoUrl := "https://api.github.com/repos/" ++ owner ++ "/" ++ repo
        let baseBranch := jsOrStr b.defaultBranch "main"
        let newBranch := "readme-update-" ++ toString now
        let req1 : Req := { method := "GET", url := repoUrl ++ "/git/ref/heads/" ++ baseBranch }
        match oracle 0 with
        | .thrown _ => { response := internalError, requests := [req1] }
        | .resp st1 _ =>
          if !(respOk st1) then
            if st1 = 401 then
              { response := { statusCode := 401,
                              error := some "GitHub session expired. Please sign in again.",
                              sessionExpired := true }, requests := [req1] }
            else if st1 = 404 then
              { response := { statusCode := 404,
                              error := some ("Branch '" ++ baseBranch ++
                                "' not found. Check the default branch name.") },
                requests := [req1] }
            else if st1 = 403 then
              { response := { statusCode := 403,
                              error := some "You don't have permission to access this repository." },
                requests := [req1] }
            else
              { response := { statusCode := st1, error := some "Failed to get branch reference" },
                requests := [req1] }
          else
            let req2 : Req := { method := "POST", url := repoUrl ++ "/git/refs" }
            match oracle 1 with
            | .thrown _ => { response := internalError, requests := [req1, req2] }
            | .resp st2 _ =>
              if !(respOk st2) then
                if st2 = 422 then
                  { response := { statusCode := 422,
                                  error := some "Branch already exists or invalid reference" },
                    requests := [req1, req2] }
                else
                  { response := { statusCode := st2, error := some "Failed to create branch" },
                    requests := [req1, req2] }
              else
                let req3 : Req :=
                  { method := "GET", url := repoUrl ++ "/contents/README.md?ref=" ++ newBranch }
                match oracle 2 with
                | .thrown _ => { response := internalError, requests := [req1, req2, req3] }
                | .resp st3 d3 =>
                  let _fileSha : Option String := if respOk st3 then d3.sha else none
                  let req4 : Req := { method := "PUT", url := repoUrl ++ "/contents/README.md" }
                  match oracle 3 with
                  | .thrown _ => { response := internalError, requests := [req1, req2, req3, req4] }
                  | .resp st4 _ =>
                    if !(respOk st4) then
                      let req5 : Req :=
                        { method := "DELETE", url := repoUrl ++ "/git/refs/heads/" ++ newBranch }
                      match oracle 4 with
                      | .thrown _ =>
                        { response := internalError, requests := [req1, req2, req3, req4, req5] }
                      | .resp _ _ =>
                        { response := { statusCode := st4,
                                        error := some "Failed to update README file" },
                          requests := [req1, req2, req3, req4, req5] }
                    else
                      let req5 : Req := { method := "POST", url := repoUrl ++ "/pulls" }
                      match oracle 4 with
                      | .thrown _ =>
                        { response := internalError, requests := [req1, req2, req3, req4, req5] }
                      | .resp st5 d5 =>
                        if !(respOk st5) then
                          { response := { statusCode := st5,
                                          error := some "Failed to create pull request" },
                            requests := [req1, req2, req3, req4, req5] }
                        else
                          { response := { statusCode := 200, success := true,
                                          prUrl := some d5.htmlUrl,
                                          prNumber := some d5.number,
                                          branch := some newBranch },
                            requests := [req1, req2, req3, req4, req5] }

/- ===== Helper lemmas about the fetch client ===== -/

theorem rateLimitExceeded_false_of_remaining {rl : RateLimit} {now : Int}
    (h : remainingLeZero rl.remaining = false) : rateLimitExceeded rl now = false := by
  simp [rateLimitExceeded, h]

theorem updateRateLimit_noHeader {headers : RespHeaders} (rl : RateLimit)
    (h : headers.xRatelimitRemaining = none) : updateRateLimit headers rl = rl := by
  unfold updateRateLimit
  rw [h]

/-- C2 helper: a true short-circuit guard yields the rate-limited error
with zero calls. -/
theorem fetch_shortCircuit {B : Type} (oracle : Nat → NetOutcome B) (now : Int) (i : Nat)
    (rl : RateLimit) (retries : Nat) (hex : rateLimitExceeded rl now = true) :
    fetchWithRateLimit oracle now i rl retries =
      { result := .error (rateLimitExceededMsg rl now), rl := rl, calls := 0, delays := [] } := by
  rw [fetchWithRateLimit.eq_def, hex, if_pos rfl]

/-- C2: while the shared rate-limit state shows `remaining == 0` and the
current time is before `resetAt`, any call through `fetchWithRateLimit`
fails immediately with the rate-limited error carrying the human-readable
wait estimate, and issues zero network requests. -/
theorem rateLimited_call_short_circuits {B : Type} (oracle : Nat → NetOutcome B)
    (i : Nat) (now ms : Int) (rl : RateLimit) (retries : Nat)
    (hrem : rl.remaining = some 0) (hreset : rl.reset = some (.at ms)) (hlt : now < ms) :
    fetchWithRateLimit oracle now i rl retries =
      { result := .error ("GitHub API rate limit exceeded. Try again in " ++
          formatResetTime ms now ++ "."),
        rl := rl, calls := 0, delays := [] } := by
  have hex : rateLimitExceeded rl now = true := by
    simp [rateLimitExceeded, hrem, hreset, remainingLeZero, JsDate.nowBefore, hlt]
  rw [fetch_shortCircuit oracle now i rl retries hex]
  simp [rateLimitExceededMsg, hreset]

/-- C2 witness: with `remaining = 0` and `resetAt` five minutes ahead, a
concrete call returns the rate-limited error and makes zero calls. -/
theorem rateLimited_call_short_circuits_witness :
    fetchWithRateLimit (fun _ => NetOutcome.resp 200 ⟨none, none⟩ () none) 0 0
        { remaining := some 0, reset := some (.at 300000) } 2 =
      { result := .error "GitHub API rate limit exceeded. Try again in 5 minute(s).",
        rl := { remaining := some 0, reset := some (.at 300000) }, calls := 0, delays := [] } := by
  rw [rateLimited_call_short_circuits (fun _ => NetOutcome.resp 200 ⟨none, none⟩ () none)
        0 0 300000 { remaining := some 0, reset := some (.at 300000) } 2 rfl rfl (by decide)]
  have h5 : formatResetTime 300000 0 = "5 minute(s)" := by decide
  rw [h5]
  rfl


/- ===== C3: tree-fetch failure is non-fatal ===== -/

/-- C3: when the repo-metadata and languages fetches succeed but the
recursive file-tree fetch fails, `fetchRepoData` still returns a snapshot
with empty `files`, `directories` and `configFiles`, and the tree-fetch
error is not propagated. -/
theorem treeFailure_nonFatal (o : RepoFetchOutcomes) (rj : RepoJson)
    (ls : List (String × Nat)) (e : String)
    (h1 : o.repoRes = .ok rj) (h2 : o.langRes = .ok ls) (h3 : o.treeRes = .error e) :
    fetchRepoData o = .ok
      { name := rj.name, fullName := rj.fullName, description := rj.description,
        owner := rj.ownerLogin, stars := rj.stargazersCount, forks := rj.forksCount,
        watchers := rj.watchersCount, openIssues := rj.openIssuesCount,
        license := licenseField rj.license, topics := rj.topics.getD [],
        homepage := rj.homepage, defaultBranch := rj.defaultBranch,
        createdAt := rj.createdAt, updatedAt := rj.updatedAt,
        languages := ls, files := [], directories := [], configFiles := [] } := by
  unfold fetchRepoData
  rw [h1, h2, h3]
  rfl

/-- A small concrete repo-metadata record used by several witnesses. -/
def sampleRepoJson : RepoJson :=
  { name := "widget", fullName := "acme/widget", description := none,
    ownerLogin := "acme", stargazersCount := 10, forksCount := 0,
    watchersCount := 0, openIssuesCount := 0, license := none, topics := none,
    homepage := none, defaultBranch := "main", createdAt := "2020-01-01",
    updatedAt := "2020-01-02" }

/-- Concrete outcomes with a failing tree fetch. -/
def c3Outcomes : RepoFetchOutcomes :=
  { repoRes := .ok sampleRepoJson, langRes := .ok [("Go", 500)],
    treeRes := .error "tree fetch failed", fileRes := fun _ => .error "never fetched" }

/-- C3 witness: the concrete aggregation with a failing tree fetch
returns the empty-lists snapshot. -/
theorem treeFailure_nonFatal_witness :
    fetchRepoData c3Outcomes = .ok
      { name := "widget", fullName := "acme/widget", description := none,
        owner := "acme", stars := 10, forks := 0, watchers := 0, openIssues := 0,
        license := none, topics := [], homepage := none, defaultBranch := "main",
        createdAt := "2020-01-01", updatedAt := "2020-01-02",
        languages := [("Go", 500)], files := [], directories := [], configFiles := [] } :=
  treeFailure_nonFatal c3Outcomes sampleRepoJson [("Go", 500)] "tree fetch failed" rfl rfl rfl

/- ===== C8: prompt compilation is deterministic ===== -/

/-- C8: prompt compilation is deterministic — `buildPrompt` is a pure
function of `(snapshot, options)`, so two invocations on the same inputs
yield byte-identical strings. -/
theorem buildPrompt_deterministic (repoData : RepoData) (enabledSections : List String)
    (tone badgeStyle : String) (useEmojis includeToc : Bool) :
    buildPrompt repoData enabledSections tone badgeStyle useEmojis includeToc =
      buildPrompt repoData enabledSections tone badgeStyle useEmojis includeToc := rfl

/- ===== C10: validation failures throw before the network call ===== -/

/-- C10: a call to `generateReadme` with no enabled section, a
missing/invalid repository record or a non-array `sections` argument
throws a validation error, and the network request to the generation
backend is never issued. -/
theorem invalid_generate_input_throws_before_network
    (repoData : Option RepoData) (sections : SectionsArg)
    (tone badgeStyle : String) (useEmojis includeToc : Bool)
    (h : sections = .notArray ∨ repoData = none ∨
         (∃ rd, repoData = some rd ∧ rd.name = "") ∨
         (∃ secs, sections = .arr secs ∧ ∀ s ∈ secs, s.enabled = false)) :
    (∃ msg, generateReadme repoData sections tone badgeStyle useEmojis includeToc =
      .error msg) ∧
    generateReadmeRequests repoData sections tone badgeStyle useEmojis includeToc = 0 := by
  have key : ∃ msg,
      generateReadme repoData sections tone badgeStyle useEmojis includeToc = .error msg := by
    unfold generateReadme
    rcases h with h | h | ⟨rd, hrd, hname⟩ | ⟨secs, hs, hall⟩
    · subst h
      cases repoData with
      | none => exact ⟨_, rfl⟩
      | some rd =>
        by_cases hn : rd.name = "" <;> simp [hn]
    · subst h
      exact ⟨_, rfl⟩
    · subst hrd
      simp [hname]
    · subst hs
      cases repoData with
      | none => exact ⟨_, rfl⟩
      | some rd =>
        by_cases hn : rd.name = ""
        · simp [hn]
        · have hfilter : secs.filter (fun s => s.enabled) = [] := by
            rw [List.filter_eq_nil_iff]
            intro a ha
            simp [hall a ha]
          simp [hn, hfilter]
  refine ⟨key, ?_⟩
  obtain ⟨msg, hmsg⟩ := key
  unfold generateReadmeRequests
  rw [hmsg]

/-- A small concrete snapshot used by several witnesses. -/
def sampleRepo : RepoData :=
  { name := "widget", fullName := "acme/widget", description := none,
    owner := "acme", stars := 10, forks := 0, watchers := 0, openIssues := 0,
    license := some "MIT", topics := [], homepage := none, defaultBranch := "main",
    createdAt := "2020-01-01", updatedAt := "2020-01-02",
    languages := [("Go", 500), ("JS", 200)], files := [], directories := [],
    configFiles := [] }

/-- C10 witness: with all sections disabled, the concrete call throws and
issues zero requests. -/
theorem invalid_generate_input_witness :
    (∃ msg, generateReadme (some sampleRepo) (.arr [⟨"badges", false⟩])
      "professional" "flat" false false = .error msg) ∧
    generateReadmeRequests (some sampleRepo) (.arr [⟨"badges", false⟩])
      "professional" "flat" false false = 0 :=
  invalid_generate_input_throws_before_network (some sampleRepo)
    (.arr [⟨"badges", false⟩]) "professional" "flat" false false
    (Or.inr (Or.inr (Or.inr ⟨[⟨"badges", false⟩], rfl, by decide⟩)))

/- ===== C7: section order preservation ===== -/

/-- Spec-level rendering of the requested-sections phrase, following the
spec's wording: the descriptions of exactly the `enabled = true` sections,
in the exact order they appear in the options list. -/
def specRequestedSections (secs : List SectionOpt) : String :=
  String.intercalate ", "
    (secs.filterMap (fun s => if s.enabled then sectionDescriptions s.id else none))

theorem sectionDescriptions_ne_empty (s d : String)
    (h : sectionDescriptions s = some d) : d ≠ "" := by
  unfold sectionDescriptions at h
  by_cases h0 : s = "badges"
  · rw [if_pos h0] at h; injection h with h; subst h; decide
  · rw [if_neg h0] at h
    by_cases h1 : s = "features"
    · rw [if_pos h1] at h; injection h with h; subst h; decide
    · rw [if_neg h1] at h
      by_cases h2 : s = "installation"
      · rw [if_pos h2] at h; injection h with h; subst h; decide
      · rw [if_neg h2] at h
        by_cases h3 : s = "usage"
        · rw [if_pos h3] at h; injection h with h; subst h; decide
        · rw [if_neg h3] at h
          by_cases h4 : s = "techStack"
          · rw [if_pos h4] at h; injection h with h; subst h; decide
          · rw [if_neg h4] at h
            by_cases h5 : s = "apiReference"
            · rw [if_pos h5] at h; injection h with h; subst h; decide
            · rw [if_neg h5] at h
              by_cases h6 : s = "configuration"
              · rw [if_pos h6] at h; injection h with h; subst h; decide
              · rw [if_neg h6] at h
                by_cases h7 : s = "testing"
                · rw [if_pos h7] at h; injection h with h; subst h; decide
                · rw [if_neg h7] at h
                  by_cases h8 : s = "roadmap"
                  · rw [if_pos h8] at h; injection h with h; subst h; decide
                  · rw [if_neg h8] at h
                    by_cases h9 : s = "faq"
                    · rw [if_pos h9] at h; injection h with h; subst h; decide
                    · rw [if_neg h9] at h
                      by_cases h10 : s = "contributing"
                      · rw [if_pos h10] at h; injection h with h; subst h; decide
                      · rw [if_neg h10] at h
                        by_cases h11 : s = "security"
                        · rw [if_pos h11] at h; injection h with h; subst h; decide
                        · rw [if_neg h11] at h
                          by_cases h12 : s = "license"
                          · rw [if_pos h12] at h; injection h with h; subst h; decide
                          · rw [if_neg h12] at h
                            exact Option.noConfusion h

theorem enabled_desc_comm (secs : List SectionOpt) :
    ((secs.filter (fun s => s.enabled)).map (fun s => s.id)).filterMap
        sectionDescriptions =
      secs.filterMap (fun s => if s.enabled then sectionDescriptions s.id else none) := by
  induction secs with
  | nil => rfl
  | cons a l ih =>
    by_cases ha : a.enabled <;>
      simp [List.filter_cons, ha, List.filterMap_cons, ih]

theorem requestedSections_eq_spec (secs : List SectionOpt) :
    requestedSectionsOf ((secs.filter (fun s => s.enabled)).map (fun s => s.id)) =
      specRequestedSections secs := by
  unfold requestedSectionsOf specRequestedSections
  rw [enabled_desc_comm]
  congr 1
  rw [List.filter_eq_self]
  intro d hd
  obtain ⟨st, hst, hstd⟩ := List.mem_filterMap.mp hd
  have hdesc : sectionDescriptions st.id = some d := by
    by_cases he : st.enabled
    · simpa [he] using hstd
    · simp [he] at hstd
  simpa using sectionDescriptions_ne_empty st.id d hdesc

/-- C7: `buildPrompt` renders only the `enabled = true` sections and lists
them, in the requested-sections phrase of the prompt, in exactly the order
they appear in the options list (`specRequestedSections`); on the spec's
example, that order differs from the canonical `sectionDescriptions`
order, so order really is preserved verbatim. -/
theorem prompt_preserves_section_order (rd : RepoData) (secs : List SectionOpt)
    (tone badgeStyle : String) (useEmojis includeToc : Bool) :
    (∃ pre post,
      buildPrompt rd ((secs.filter (fun s => s.enabled)).map (fun s => s.id))
          tone badgeStyle useEmojis includeToc =
        pre ++ ("\n\nREQUESTED SECTIONS (in order): " ++
          specRequestedSections secs ++ "\n") ++ post) ∧
    specRequestedSections [⟨"techStack", true⟩, ⟨"license", true⟩, ⟨"badges", true⟩] =
      "Tech stack / dependencies list, License section, Badges (stars, forks, license, language shields.io badges)" ∧
    specRequestedSections [⟨"techStack", true⟩, ⟨"license", true⟩, ⟨"badges", true⟩] ≠
      requestedSectionsOf ["badges", "techStack", "license"] := by
  refine ⟨?_, by decide, by decide⟩
  refine ⟨"Generate a professional README.md file for this GitHub repository.\n\nREPOSITORY INFO:\n- Name: " ++
    rd.name ++ "\n- Full name: " ++ rd.fullName ++ "\n- Description: " ++
    jsOrStr rd.description "No description provided" ++ "\n- Owner: " ++ rd.owner ++
    "\n- Stars: " ++ toString rd.stars ++ "\n- Forks: " ++ toString rd.forks ++
    "\n- License: " ++ jsOrStr rd.license "Not specified" ++ "\n- Topics: " ++
    (if String.intercalate ", " rd.topics = "" then "None"
     else String.intercalate ", " rd.topics) ++
    "\n- Homepage: " ++ jsOrStr rd.homepage "None" ++ "\n- Default branch: " ++
    rd.defaultBranch ++ "\n\nLANGUAGES:\n" ++
    (if languageListOf rd.languages = "" then "Not available"
     else languageListOf rd.languages) ++ "\n\nROOT FILES:\n" ++
    (if rootFilesOf rd.files = "" then "Not available" else rootFilesOf rd.files) ++
    "\n\nTOP-LEVEL DIRECTORIES:\n" ++
    (if rootFilesOf rd.directories = "" then "Not available"
     else rootFilesOf rd.directories) ++ "\n\nCONFIG FILES:\n" ++
    (if configSummaryOf rd.configFiles = "" then "None found"
     else configSummaryOf rd.configFiles),
    getToneInstructions tone ++ badgeInstructionsOf badgeStyle rd.fullName ++
      emojiInstructionsOf useEmojis ++ tocInstructionsOf includeToc useEmojis ++
      "\nINSTRUCTIONS:\n1. Generate ONLY the sections requested above, IN THE EXACT ORDER LISTED\n2. Make it professional and well-formatted\n3. Infer the project's purpose from the available information\n4. For installation, use appropriate commands based on the detected package manager/language\n5. For usage, provide realistic examples based on what the project appears to do\n6. Use shields.io badge format if badges are requested, with the specified style parameter\n7. For API reference, infer endpoints or methods from the codebase structure\n8. For configuration, list environment variables or config options if detectable\n9. IMPORTANT: Follow the tone guidelines strictly throughout the entire README\n10. Output ONLY the raw markdown, no explanations or code fences", ?_⟩
  rw [← requestedSections_eq_spec]
  simp only [buildPrompt, String.append_assoc]

/- ===== C9: rate-limit state updated on every response ===== -/

/-- The rate-limit state a `FetchStep` records. -/
def FetchStep.state {B : Type} : FetchStep B → RateLimit
  | .done _ rl => rl
  | .transient _ rl => rl

theorem classify_resp_state {B : Type} (status : Nat) (headers : RespHeaders)
    (b : B) (m : Option String) (rl : RateLimit) :
    (classifyOutcome (.resp status headers b m) rl).state = updateRateLimit headers rl := by
  simp only [classifyOutcome]
  repeat' split
  all_goals rfl

theorem classify_ok {B : Type} (status : Nat) (headers : RespHeaders)
    (b : B) (m : Option String) (rl : RateLimit) (hok : respOk status = true) :
    classifyOutcome (.resp status headers b m) rl =
      .done (.ok b) (updateRateLimit headers rl) := by
  simp [classifyOutcome, hok]

theorem classify_5xx {B : Type} (status : Nat) (headers : RespHeaders)
    (b : B) (m : Option String) (rl : RateLimit) (h5 : 500 ≤ status) :
    classifyOutcome (.resp status headers b m) rl =
      .transient (.error (apiErrorMsg status m)) (updateRateLimit headers rl) := by
  have hok : respOk status = false := by
    simp only [respOk, Bool.and_eq_false_iff]
    right
    simp only [decide_eq_false_iff_not]
    omega
  have h404 : (status == 404) = false := by simp; omega
  have h403 : (status == 403) = false := by simp; omega
  have h401 : (status == 401) = false := by simp; omega
  simp [classifyOutcome, hok, h404, h403, h401, h5]

theorem classify_lt500_err {B : Type} (status : Nat) (headers : RespHeaders)
    (b : B) (m : Option String) (rl : RateLimit)
    (hlt : status < 500) (hok : respOk status = false) :
    ∃ e, classifyOutcome (.resp status headers b m) rl =
      .done (.error e) (updateRateLimit headers rl) := by
  simp only [classifyOutcome, hok, Bool.false_eq_true, if_false]
  repeat' split
  all_goals first
    | exact ⟨_, rfl⟩
    | (exfalso; omega)

theorem classify_netError_typeError {B : Type} (msg : String) (rl : RateLimit) :
    classifyOutcome (NetOutcome.netError (B := B) "TypeError" msg) rl =
      .transient (.error msg) rl := by
  simp [classifyOutcome]

/-- Driver step: a non-short-circuited attempt whose outcome classifies as
`done` ends the call with one network request. -/
theorem fetch_done {B : Type} (oracle : Nat → NetOutcome B) (now : Int) (i : Nat)
    (rl rl2 : RateLimit) (retries : Nat) (res : Except String B)
    (hnx : rateLimitExceeded rl now = false)
    (hc : classifyOutcome (oracle i) rl = .done res rl2) :
    fetchWithRateLimit oracle now i rl retries =
      { result := res, rl := rl2, calls := 1, delays := [] } := by
  rw [fetchWithRateLimit.eq_def, hnx, hc]
  rw [if_neg (by decide)]

/-- Driver step: a transient failure with no retries left surfaces the
attempt's own error. -/
theorem fetch_transient_zero {B : Type} (oracle : Nat → NetOutcome B) (now : Int)
    (i : Nat) (rl rl2 : RateLimit) (fallback : Except String B)
    (hnx : rateLimitExceeded rl now = false)
    (hc : classifyOutcome (oracle i) rl = .transient fallback rl2) :
    fetchWithRateLimit oracle now i rl 0 =
      { result := fallback, rl := rl2, calls := 1, delays := [] } := by
  rw [fetchWithRateLimit.eq_def, hnx, hc]
  rw [if_neg (by decide)]

/-- Driver step: a transient failure with retries remaining sleeps 1000 ms
and retries from the updated state. -/
theorem fetch_transient_succ {B : Type} (oracle : Nat → NetOutcome B) (now : Int)
    (i : Nat) (rl rl2 : RateLimit) (r : Nat) (fallback : Except String B)
    (hnx : rateLimitExceeded rl now = false)
    (hc : classifyOutcome (oracle i) rl = .transient fallback rl2) :
    fetchWithRateLimit oracle now i rl (r + 1) =
      { result := (fetchWithRateLimit oracle (now + 1000) (i + 1) rl2 r).result,
        rl := (fetchWithRateLimit oracle (now + 1000) (i + 1) rl2 r).rl,
        calls := (fetchWithRateLimit oracle (now + 1000) (i + 1) rl2 r).calls + 1,
        delays := 1000 :: (fetchWithRateLimit oracle (now + 1000) (i + 1) rl2 r).delays } := by
  rw [fetchWithRateLimit.eq_def, hnx, hc]
  rw [if_neg (by decide)]

/-- C9: after every response received through the fetch client — success
or error alike — the shared rate-limit state is the result of
`updateRateLimit` on that response's headers: for non-5xx statuses the
final state is exactly `updateRateLimit headers rl`; for a retried 5xx the
continuation starts from `updateRateLimit headers rl`; and when the
`x-ratelimit-remaining` header is present the updated state is determined
by the headers alone (the previous state is overwritten). -/
theorem response_overwrites_rate_limit {B : Type} (oracle : Nat → NetOutcome B)
    (now : Int) (i : Nat) (rl : RateLimit) (retries status : Nat)
    (headers : RespHeaders) (b : B) (m : Option String)
    (hnx : rateLimitExceeded rl now = false)
    (hor : oracle i = .resp status headers b m) :
    (status < 500 → (fetchWithRateLimit oracle now i rl retries).rl =
      updateRateLimit headers rl) ∧
    (500 ≤ status → retries = 0 → (fetchWithRateLimit oracle now i rl retries).rl =
      updateRateLimit headers rl) ∧
    (∀ r, 500 ≤ status → retries = r + 1 →
      fetchWithRateLimit oracle now i rl retries =
        { result := (fetchWithRateLimit oracle (now + 1000) (i + 1)
            (updateRateLimit headers rl) r).result,
          rl := (fetchWithRateLimit oracle (now + 1000) (i + 1)
            (updateRateLimit headers rl) r).rl,
          calls := (fetchWithRateLimit oracle (now + 1000) (i + 1)
            (updateRateLimit headers rl) r).calls + 1,
          delays := 1000 :: (fetchWithRateLimit oracle (now + 1000) (i + 1)
            (updateRateLimit headers rl) r).delays }) ∧
    (∀ rem, headers.xRatelimitRemaining = some rem →
      ∀ rlA rlB : RateLimit, updateRateLimit headers rlA = updateRateLimit headers rlB) := by
  refine ⟨?_, ?_, ?_, ?_⟩
  · intro hlt
    by_cases hok : respOk status = true
    · rw [fetch_done oracle now i rl _ retries _ hnx (by rw [hor]; exact classify_ok status headers b m rl hok)]
    · obtain ⟨e, he⟩ := classify_lt500_err status headers b m rl hlt (by simpa using hok)
      rw [fetch_done oracle now i rl _ retries _ hnx (by rw [hor]; exact he)]
  · intro h5 h0
    subst h0
    rw [fetch_transient_zero oracle now i rl _ _ hnx
      (by rw [hor]; exact classify_5xx status headers b m rl h5)]
  · intro r h5 hr
    subst hr
    rw [fetch_transient_succ oracle now i rl _ r _ hnx
      (by rw [hor]; exact classify_5xx status headers b m rl h5)]
  · intro rem hrem rlA rlB
    unfold updateRateLimit
    rw [hrem]

/-- C9 witness: a concrete 404 error response overwrites the state with
the parsed header values. -/
theorem response_overwrites_rate_limit_witness :
    (fetchWithRateLimit (fun _ => NetOutcome.resp 404 ⟨some "41", some "1700000000"⟩ () none)
        0 0 initialRateLimit 2).rl =
      { remaining := some 41, reset := some (.at 1700000000000) } := by
  have h := response_overwrites_rate_limit
    (fun _ => NetOutcome.resp 404 ⟨some "41", some "1700000000"⟩ () none)
    0 0 initialRateLimit 2 404 ⟨some "41", some "1700000000"⟩ () none rfl rfl
  rw [h.1 (by decide)]
  decide

/- ===== C5: retry policy ===== -/

/-- C5: with the default bound of 2 retries, a run of transient failures
(three straight `status >= 500` responses, or three straight network
`TypeError`s) is retried exactly twice with a 1000 ms delay between
attempts and then surfaces the last attempt's error; a non-transient 4xx
failure is never retried (one call, no delay, an error surfaced at once). -/
theorem retry_policy {B : Type} :
    (∀ (oracle : Nat → NetOutcome B) (now : Int) (i : Nat) (rl : RateLimit)
      (s0 s1 s2 : Nat) (hd0 hd1 hd2 : RespHeaders) (b0 b1 b2 : B)
      (m0 m1 m2 : Option String),
      remainingLeZero rl.remaining = false →
      oracle i = .resp s0 hd0 b0 m0 →
      oracle (i + 1) = .resp s1 hd1 b1 m1 →
      oracle (i + 2) = .resp s2 hd2 b2 m2 →
      500 ≤ s0 → 500 ≤ s1 → 500 ≤ s2 →
      hd0.xRatelimitRemaining = none → hd1.xRatelimitRemaining = none →
      fetchWithRateLimit oracle now i rl 2 =
        { result := .error (apiErrorMsg s2 m2), rl := updateRateLimit hd2 rl,
          calls := 3, delays := [1000, 1000] }) ∧
    (∀ (oracle : Nat → NetOutcome B) (now : Int) (i : Nat) (rl : RateLimit)
      (retries s : Nat) (hd : RespHeaders) (b : B) (m : Option String),
      remainingLeZero rl.remaining = false →
      oracle i = .resp s hd b m →
      400 ≤ s → s < 500 →
      (fetchWithRateLimit oracle now i rl retries).calls = 1 ∧
      (fetchWithRateLimit oracle now i rl retries).delays = [] ∧
      ∃ e, (fetchWithRateLimit oracle now i rl retries).result = .error e) ∧
    (∀ (oracle : Nat → NetOutcome B) (now : Int) (i : Nat) (rl : RateLimit)
      (m0 m1 m2 : String),
      remainingLeZero rl.remaining = false →
      oracle i = .netError "TypeError" m0 →
      oracle (i + 1) = .netError "TypeError" m1 →
      oracle (i + 2) = .netError "TypeError" m2 →
      fetchWithRateLimit oracle now i rl 2 =
        { result := .error m2, rl := rl, calls := 3, delays := [1000, 1000] }) := by
  refine ⟨?_, ?_, ?_⟩
  · intro oracle now i rl s0 s1 s2 hd0 hd1 hd2 b0 b1 b2 m0 m1 m2
      hrem h0 h1 h2 h50 h51 h52 hh0 hh1
    have hnx : ∀ n : Int, rateLimitExceeded rl n = false :=
      fun _ => rateLimitExceeded_false_of_remaining hrem
    have e0 : classifyOutcome (oracle i) rl =
        .transient (.error (apiErrorMsg s0 m0)) rl := by
      rw [h0, classify_5xx s0 hd0 b0 m0 rl h50, updateRateLimit_noHeader rl hh0]
    have e1 : classifyOutcome (oracle (i + 1)) rl =
        .transient (.error (apiErrorMsg s1 m1)) rl := by
      rw [h1, classify_5xx s1 hd1 b1 m1 rl h51, updateRateLimit_noHeader rl hh1]
    have e2 : classifyOutcome (oracle (i + 2)) rl =
        .transient (.error (apiErrorMsg s2 m2)) (updateRateLimit hd2 rl) := by
      rw [h2]
      exact classify_5xx s2 hd2 b2 m2 rl h52
    have t2 : fetchWithRateLimit oracle (now + 1000 + 1000) (i + 1 + 1) rl 0 =
        { result := .error (apiErrorMsg s2 m2), rl := updateRateLimit hd2 rl,
          calls := 1, delays := [] } :=
      fetch_transient_zero oracle (now + 1000 + 1000) (i + 1 + 1) rl _ _ (hnx _) e2
    have t1 : fetchWithRateLimit oracle (now + 1000) (i + 1) rl 1 =
        { result := .error (apiErrorMsg s2 m2), rl := updateRateLimit hd2 rl,
          calls := 2, delays := [1000] } := by
      have step := fetch_transient_succ oracle (now + 1000) (i + 1) rl rl 0 _ (hnx _) e1
      rw [show (1 : Nat) = 0 + 1 from rfl, step, t2]
    have step := fetch_transient_succ oracle now i rl rl 1 _ (hnx _) e0
    rw [show (2 : Nat) = 1 + 1 from rfl, step, t1]
  · intro oracle now i rl retries s hd b m hrem hor h400 h500
    have hnx : rateLimitExceeded rl now = false :=
      rateLimitExceeded_false_of_remaining hrem
    have hok : respOk s = false := by
      simp only [respOk, Bool.and_eq_false_iff]
      right
      simp only [decide_eq_false_iff_not]
      omega
    obtain ⟨e, he⟩ := classify_lt500_err s hd b m rl h500 hok
    rw [fetch_done oracle now i rl _ retries _ hnx (by rw [hor]; exact he)]
    exact ⟨rfl, rfl, e, rfl⟩
  · intro oracle now i rl m0 m1 m2 hrem h0 h1 h2
    have hnx : ∀ n : Int, rateLimitExceeded rl n = false :=
      fun _ => rateLimitExceeded_false_of_remaining hrem
    have e0 : classifyOutcome (oracle i) rl = .transient (.error m0) rl := by
      rw [h0]
      exact classify_netError_typeError m0 rl
    have e1 : classifyOutcome (oracle (i + 1)) rl = .transient (.error m1) rl := by
      rw [h1]
      exact classify_netError_typeError m1 rl
    have e2 : classifyOutcome (oracle (i + 2)) rl = .transient (.error m2) rl := by
      rw [h2]
      exact classify_netError_typeError m2 rl
    have t2 : fetchWithRateLimit oracle (now + 1000 + 1000) (i + 1 + 1) rl 0 =
        { result := .error m2, rl := rl, calls := 1, delays := [] } :=
      fetch_transient_zero oracle (now + 1000 + 1000) (i + 1 + 1) rl _ _ (hnx _) e2
    have t1 : fetchWithRateLimit oracle (now + 1000) (i + 1) rl 1 =
        { result := .error m2, rl := rl, calls := 2, delays := [1000] } := by
      have step := fetch_transient_succ oracle (now + 1000) (i + 1) rl rl 0 _ (hnx _) e1
      rw [show (1 : Nat) = 0 + 1 from rfl, step, t2]
    have step := fetch_transient_succ oracle now i rl rl 1 _ (hnx _) e0
    rw [show (2 : Nat) = 1 + 1 from rfl, step, t1]

/-- C5 witness: concrete runs — three 503s are retried twice then surface
the 503 error; a 404 is answered in one call with no delay; three network
`TypeError`s are retried twice then surface the network error. -/
theorem retry_policy_witness :
    fetchWithRateLimit (fun _ => NetOutcome.resp 503 ⟨none, none⟩ () (some "oops"))
        0 0 initialRateLimit 2 =
      { result := .error "GitHub API error: 503 - oops", rl := initialRateLimit,
        calls := 3, delays := [1000, 1000] } ∧
    ((fetchWithRateLimit (fun _ => NetOutcome.resp 404 ⟨none, none⟩ () none)
        0 0 initialRateLimit 2).calls = 1 ∧
     (fetchWithRateLimit (fun _ => NetOutcome.resp 404 ⟨none, none⟩ () none)
        0 0 initialRateLimit 2).delays = []) ∧
    fetchWithRateLimit (fun _ => NetOutcome.netError (B := Unit) "TypeError" "Failed to fetch")
        0 0 initialRateLimit 2 =
      { result := .error "Failed to fetch", rl := initialRateLimit,
        calls := 3, delays := [1000, 1000] } := by
  refine ⟨?_, ?_, ?_⟩
  · have h := (retry_policy (B := Unit)).1
      (fun _ => NetOutcome.resp 503 ⟨none, none⟩ () (some "oops")) 0 0 initialRateLimit
      503 503 503 ⟨none, none⟩ ⟨none, none⟩ ⟨none, none⟩ () () ()
      (some "oops") (some "oops") (some "oops")
      rfl rfl rfl rfl (by decide) (by decide) (by decide) rfl rfl
    rw [h]
    rfl
  · have h := (retry_policy (B := Unit)).2.1
      (fun _ => NetOutcome.resp 404 ⟨none, none⟩ () none) 0 0 initialRateLimit
      2 404 ⟨none, none⟩ () none rfl rfl (by decide) (by decide)
    exact ⟨h.1, h.2.1⟩
  · have h := (retry_policy (B := Unit)).2.2
      (fun _ => NetOutcome.netError "TypeError" "Failed to fetch") 0 0 initialRateLimit
      "Failed to fetch" "Failed to fetch" "Failed to fetch" rfl rfl rfl rfl
    rw [h]

/- ===== C6: config fan-out independence ===== -/

/-- When the repo-metadata and languages fetches succeed, `fetchRepoData`
returns the assembled snapshot regardless of the tree and per-file
outcomes. -/
theorem fetchRepoData_ok_eq (o : RepoFetchOutcomes) (rj : RepoJson)
    (ls : List (String × Nat))
    (h1 : o.repoRes = .ok rj) (h2 : o.langRes = .ok ls) :
    fetchRepoData o = .ok
      { name := rj.name, fullName := rj.fullName, description := rj.description,
        owner := rj.ownerLogin, stars := rj.stargazersCount, forks := rj.forksCount,
        watchers := rj.watchersCount, openIssues := rj.openIssuesCount,
        license := licenseField rj.license, topics := rj.topics.getD [],
        homepage := rj.homepage, defaultBranch := rj.defaultBranch,
        createdAt := rj.createdAt, updatedAt := rj.updatedAt,
        languages := ls, files := (treeLists o.treeRes).1,
        directories := (treeLists o.treeRes).2,
        configFiles := collectConfigFiles (treeLists o.treeRes).1 o.fileRes } := by
  unfold fetchRepoData
  rw [h1, h2]
  rfl

/-- Membership in the collected config-files mapping: exactly the
allow-listed paths present in `files` whose fetch produced truthy
(non-null, non-empty) content. -/
theorem mem_collectConfigFiles (files : List String)
    (fileRes : String → Except String FileData) (p c : String) :
    (p, c) ∈ collectConfigFiles files fileRes ↔
      (p ∈ configPaths ∧ p ∈ files ∧
       fetchFileContent (fileRes p) = some c ∧ c ≠ "") := by
  unfold collectConfigFiles
  rw [List.mem_filterMap]
  constructor
  · rintro ⟨pc, hpc, hsome⟩
    obtain ⟨q, hq, rfl⟩ := List.mem_map.mp hpc
    have hq' := List.mem_filter.mp hq
    cases hfc : fetchFileContent (fileRes q) with
    | none =>
      rw [hfc] at hsome
      exact absurd hsome (by simp)
    | some content =>
      rw [hfc] at hsome
      dsimp only at hsome
      by_cases hce : content = ""
      · rw [if_pos hce] at hsome
        exact Option.noConfusion hsome
      · rw [if_neg hce] at hsome
        injection hsome with hsome
        rw [Prod.mk.injEq] at hsome
        obtain ⟨rfl, rfl⟩ := hsome
        exact ⟨hq'.1, by simpa using hq'.2, hfc, hce⟩
  · rintro ⟨hp1, hp2, hfc, hce⟩
    refine ⟨(p, fetchFileContent (fileRes p)), ?_, ?_⟩
    · exact List.mem_map.mpr ⟨p, List.mem_filter.mpr ⟨hp1, by simpa⟩, rfl⟩
    · rw [hfc]
      simp [hce]

/-- C6: whenever aggregation proceeds (metadata and languages fetched),
each per-file fetch failure is swallowed — `fetchRepoData` still returns a
snapshot — and the snapshot's `configFiles` mapping contains exactly the
candidate files whose fetch succeeded with non-empty content. -/
theorem config_fanout_exact (o : RepoFetchOutcomes) (rj : RepoJson)
    (ls : List (String × Nat))
    (h1 : o.repoRes = .ok rj) (h2 : o.langRes = .ok ls) :
    ∃ snap, fetchRepoData o = .ok snap ∧
      ∀ p c, ((p, c) ∈ snap.configFiles ↔
        (p ∈ configPaths ∧ p ∈ snap.files ∧
         fetchFileContent (o.fileRes p) = some c ∧ c ≠ "")) := by
  refine ⟨_, fetchRepoData_ok_eq o rj ls h1 h2, ?_⟩
  intro p c
  exact mem_collectConfigFiles (treeLists o.treeRes).1 o.fileRes p c

/-- The spec's three-candidate scenario: `package.json` and `Cargo.toml`
fetch successfully (base64 payloads of `hello` / `world`), while the
`requirements.txt` fetch fails. -/
def c6Outcomes : RepoFetchOutcomes :=
  { repoRes := .ok sampleRepoJson, langRes := .ok [("Go", 500)],
    treeRes := .ok
      { tree := some [⟨"blob", "package.json"⟩, ⟨"blob", "Cargo.toml"⟩,
                      ⟨"blob", "requirements.txt"⟩] },
    fileRes := fun p =>
      if p = "package.json" then .ok { content := some "aGVsbG8=" }
      else if p = "Cargo.toml" then .ok { content := some "d29ybGQ=" }
      else .error "fetch failed" }

/-- C6 witness: in the three-candidate scenario with one failing fetch,
the snapshot's `configFiles` is exactly the two successes. -/
theorem config_fanout_exact_witness :
    (∃ snap, fetchRepoData c6Outcomes = .ok snap ∧
      ∀ p c, ((p, c) ∈ snap.configFiles ↔
        (p ∈ configPaths ∧ p ∈ snap.files ∧
         fetchFileContent (c6Outcomes.fileRes p) = some c ∧ c ≠ ""))) ∧
    ((fetchRepoData c6Outcomes).map RepoData.configFiles).toOption =
      some [("package.json", "hello"), ("Cargo.toml", "world")] :=
  ⟨config_fanout_exact c6Outcomes sampleRepoJson [("Go", 500)] rfl rfl, by decide⟩

/- ===== C4: per-file truncation happens at prompt time, not in the
snapshot ===== -/

theorem filter_join_replicate {α : Type} (p : α → Bool) (n : Nat) (blk : List α) :
    (List.flatten (List.replicate n blk)).filter p =
      List.flatten (List.replicate n (blk.filter p)) := by
  induction n with
  | zero => rfl
  | succ k ih => simp [List.replicate_succ, List.filter_append, ih]

theorem filterMap_join_replicate {α β : Type} (f : α → Option β) (n : Nat) (blk : List α) :
    (List.flatten (List.replicate n blk)).filterMap f =
      List.flatten (List.replicate n (blk.filterMap f)) := by
  induction n with
  | zero => rfl
  | succ k ih => simp [List.replicate_succ, List.filterMap_append, ih]

theorem length_join_replicate {α : Type} (n : Nat) (blk : List α) :
    (List.flatten (List.replicate n blk)).length = n * blk.length := by
  induction n with
  | zero => simp
  | succ k ih =>
    rw [List.replicate_succ, List.flatten_cons, List.length_append, ih]
    ring

/-- Base64-decoding a repeated `YWFh` block (`aaa`) yields repeated
`97 97 97` byte triples. -/
theorem base64Groups_aaa (n : Nat) :
    base64Groups (List.flatten (List.replicate n [24, 22, 5, 33])) =
      List.flatten (List.replicate n [97, 97, 97]) := by
  induction n with
  | zero => rfl
  | succ k ih =>
    rw [List.replicate_succ, List.flatten_cons, List.replicate_succ, List.flatten_cons]
    show base64Groups (24 :: 22 :: 5 :: 33 ::
        (List.replicate k [24, 22, 5, 33]).flatten) =
      97 :: 97 :: 97 :: (List.replicate k [97, 97, 97]).flatten
    rw [show ∀ rest, base64Groups (24 :: 22 :: 5 :: 33 :: rest) =
      97 :: 97 :: 97 :: base64Groups rest from fun rest => rfl]
    rw [ih]

/-- UTF-8 decoding of pure-ASCII bytes is the bytewise character map. -/
theorem utf8DecodeAux_ascii : ∀ (fuel : Nat) (bs : List Nat),
    bs.length ≤ fuel → (∀ b ∈ bs, b < 128) →
    utf8DecodeAux fuel bs = bs.map (fun b => Char.ofNat b)
  | 0, [] => by intro _ _; rfl
  | 0, b :: rest => by intro h _; exact absurd h (by simp)
  | fuel + 1, [] => by intro _ _; rfl
  | fuel + 1, b :: rest => by
    intro hlen hmem
    have hb : b < 128 := hmem b (by simp)
    rw [utf8DecodeAux.eq_def]
    dsimp only
    rw [if_pos hb, List.map_cons]
    rw [utf8DecodeAux_ascii fuel rest
      (by simp only [List.length_cons] at hlen; omega)
      (fun x hx => hmem x (by simp [hx]))]

/-- A 2668-character base64 payload that decodes to 2001 letters `a`. -/
def c4Big : String := String.mk (List.flatten (List.replicate 667 ['Y', 'W', 'F', 'h']))

/-- Aggregation outcomes whose single config file carries `c4Big`. -/
def c4Outcomes : RepoFetchOutcomes :=
  { repoRes := .ok sampleRepoJson, langRes := .ok [("Go", 500)],
    treeRes := .ok { tree := some [⟨"blob", "package.json"⟩] },
    fileRes := fun p =>
      if p = "package.json" then .ok { content := some c4Big }
      else .error "fetch failed" }

theorem c4Big_decoded :
    decodeBase64 (removeNewlines c4Big) =
      String.mk ((List.flatten (List.replicate 667 [97, 97, 97])).map
        (fun b => Char.ofNat b)) := by
  have hrm : removeNewlines c4Big = c4Big := by
    unfold removeNewlines c4Big
    rw [show (String.mk (List.flatten (List.replicate 667 ['Y', 'W', 'F', 'h']))).toList =
      List.flatten (List.replicate 667 ['Y', 'W', 'F', 'h']) from rfl]
    rw [filter_join_replicate]
    rfl
  rw [hrm]
  unfold decodeBase64 c4Big
  rw [show (String.mk (List.flatten (List.replicate 667 ['Y', 'W', 'F', 'h']))).toList =
    List.flatten (List.replicate 667 ['Y', 'W', 'F', 'h']) from rfl]
  rw [filterMap_join_replicate]
  rw [show List.filterMap base64Val ['Y', 'W', 'F', 'h'] = [24, 22, 5, 33] from rfl]
  rw [base64Groups_aaa]
  unfold utf8Decode
  rw [utf8DecodeAux_ascii _ _ le_rfl]
  intro b hb
  have hb97 : b ∈ [97, 97, 97] := by
    obtain ⟨l, hl, hbl⟩ := List.mem_flatten.mp hb
    rwa [List.eq_of_mem_replicate hl] at hbl
  simp at hb97
  omega

theorem c4Big_decoded_length : (decodeBase64 (removeNewlines c4Big)).length = 2001 := by
  rw [c4Big_decoded]
  show ((List.flatten (List.replicate 667 [97, 97, 97])).map (fun b => Char.ofNat b)).length = 2001
  rw [List.length_map, length_join_replicate]
  decide

/-- C4 counterexample: an aggregation whose config file decodes to 2001
characters stores all 2001 characters in the snapshot's `configFiles`
mapping — the stored content is not truncated to 2000 characters. -/
theorem config_truncation_counterexample :
    ((fetchRepoData c4Outcomes).map (fun snap =>
      snap.configFiles.map (fun fc => (fc.1, fc.2.length)))).toOption =
      some [("package.json", 2001)] ∧ ¬(2001 ≤ 2000) := by
  constructor
  · have hne : decodeBase64 (removeNewlines c4Big) ≠ "" := by
      intro h
      have := c4Big_decoded_length
      rw [h] at this
      simp at this
    have hfc : fetchFileContent (c4Outcomes.fileRes "package.json") =
        some (decodeBase64 (removeNewlines c4Big)) := by
      rw [show c4Outcomes.fileRes "package.json" =
        .ok { content := some c4Big } from rfl]
      unfold fetchFileContent
      dsimp only
      rw [if_neg (by decide)]
    have hcol : collectConfigFiles ["package.json"] c4Outcomes.fileRes =
        [("package.json", decodeBase64 (removeNewlines c4Big))] := by
      unfold collectConfigFiles
      rw [show configPaths.filter
        (fun path => (["package.json"] : List String).contains path) =
        ["package.json"] from by decide]
      rw [List.map_cons, List.map_nil, hfc]
      dsimp only [List.filterMap]
      rw [if_neg hne]
    rw [fetchRepoData_ok_eq c4Outcomes sampleRepoJson [("Go", 500)] rfl rfl]
    rw [show (treeLists c4Outcomes.treeRes).1 = ["package.json"] from rfl]
    dsimp only [Except.map, Except.toOption]
    rw [hcol]
    dsimp only [List.map]
    rw [c4Big_decoded_length]
  · decide

/-- C4 amended: the snapshot stores each successfully fetched config
file's decoded content unmodified — whatever `fetchFileContent` produced,
with no length cap — and the 2000-character-per-file truncation (with its
explicit `... (truncated)` marker) is applied by the prompt compiler
(`truncateConfig` inside `configSummaryOf` / `buildPrompt`) when the
prompt is built. -/
theorem config_contents_untruncated_until_prompt (o : RepoFetchOutcomes)
    (snap : RepoData) (p c : String)
    (h : fetchRepoData o = .ok snap) (hm : (p, c) ∈ snap.configFiles) :
    fetchFileContent (o.fileRes p) = some c ∧
    (∀ content : String, 2000 < content.length →
      truncateConfig content = content.take 2000 ++ "\n... (truncated)") ∧
    (∀ content : String, content.length ≤ 2000 → truncateConfig content = content) ∧
    configSummaryOf snap.configFiles =
      String.intercalate "\n\n" (snap.configFiles.map
        (fun fc => "--- " ++ fc.1 ++ " ---\n" ++ truncateConfig fc.2)) := by
  have hcf : snap.configFiles = collectConfigFiles (treeLists o.treeRes).1 o.fileRes := by
    cases hr : o.repoRes with
    | error e =>
      have hfe : fetchRepoData o = .error e := by
        unfold fetchRepoData
        rw [hr]
        rfl
      rw [hfe] at h
      exact Except.noConfusion h
    | ok rj =>
      cases hl : o.langRes with
      | error e =>
        have hfe : fetchRepoData o = .error e := by
          unfold fetchRepoData
          rw [hr, hl]
          rfl
        rw [hfe] at h
        exact Except.noConfusion h
      | ok ls =>
        rw [fetchRepoData_ok_eq o rj ls hr hl] at h
        injection h with h
        rw [← h]
  have hfc := (mem_collectConfigFiles (treeLists o.treeRes).1 o.fileRes p c).mp
    (hcf ▸ hm)
  refine ⟨hfc.2.2.1, ?_, ?_, rfl⟩
  · intro content hlen
    unfold truncateConfig
    rw [if_pos hlen]
  · intro content hlen
    unfold truncateConfig
    rw [if_neg (by omega)]

/-- The snapshot produced by the concrete `c6Outcomes` aggregation. -/
def c6Snap : RepoData :=
  { name := "widget", fullName := "acme/widget", description := none,
    owner := "acme", stars := 10, forks := 0, watchers := 0, openIssues := 0,
    license := none, topics := [], homepage := none, defaultBranch := "main",
    createdAt := "2020-01-01", updatedAt := "2020-01-02",
    languages := [("Go", 500)],
    files := ["package.json", "Cargo.toml", "requirements.txt"],
    directories := [],
    configFiles := [("package.json", "hello"), ("Cargo.toml", "world")] }

/-- C4 amended witness: on the concrete aggregation, the stored content
equals the decode output, and `truncateConfig` truncates only at prompt
time. -/
theorem config_contents_untruncated_witness :
    fetchFileContent (c6Outcomes.fileRes "package.json") = some "hello" ∧
    (∀ content : String, 2000 < content.length →
      truncateConfig content = content.take 2000 ++ "\n... (truncated)") ∧
    (∀ content : String, content.length ≤ 2000 → truncateConfig content = content) ∧
    configSummaryOf c6Snap.configFiles =
      String.intercalate "\n\n" (c6Snap.configFiles.map
        (fun fc => "--- " ++ fc.1 ++ " ---\n" ++ truncateConfig fc.2)) :=
  config_contents_untruncated_until_prompt c6Outcomes c6Snap "package.json" "hello"
    (by rfl) (by decide)

/- ===== C1: the compensating branch delete ===== -/

/-- A request body in which every required field is present. -/
def prOkBody : PrBody :=
  { owner := some "acme", repo := some "widget", content := some "new readme",
    defaultBranch := some "main" }

/-- Oracle for the run where steps 1–2 succeed, step 4 fails with a 500
response, and the compensating delete's `fetch` itself throws. -/
def c1ThrowOracle : Nat → GHOutcome
  | 0 => .resp 200 { objectSha := "abc123" }
  | 1 => .resp 201 {}
  | 2 => .resp 404 {}
  | 3 => .resp 500 {}
  | _ => .thrown "connect ETIMEDOUT"

/-- C1 counterexample: step 2 succeeded and step 4 failed, the delete
request for the created branch was issued — but because that delete's
`fetch` threw, the handler's top-level `catch` answered
`500 Internal server error`, hiding the step-4 write error.  So the
delete's outcome can replace the error returned to the caller. -/
theorem compensating_delete_counterexample :
    (handler "POST" (some "token123") (.parsed prOkBody) 123 c1ThrowOracle).response =
      { statusCode := 500, error := some "Internal server error" } ∧
    (handler "POST" (some "token123") (.parsed prOkBody) 123 c1ThrowOracle).requests.length = 5 ∧
    (handler "POST" (some "token123") (.parsed prOkBody) 123 c1ThrowOracle).requests.getLast? =
      some { method := "DELETE",
             url := "https://api.github.com/repos/acme/widget/git/refs/heads/readme-update-123" } ∧
    (handler "POST" (some "token123") (.parsed prOkBody) 123 c1ThrowOracle).response.error ≠
      some "Failed to update README file" := by
  refine ⟨by decide, by decide, by decide, by decide⟩

/-- C1 amended: in every execution in which step 2 (create branch)
succeeded and step 4 (write README.md) failed with an HTTP error
response, the compensating DELETE for the very branch created in step 2
(`readme-update-<now>`) is issued as the fifth request, and — provided
the delete attempt itself completes with an HTTP response, of any status —
the response returned to the caller carries the step-4 status and the
step-4 error message, unaffected by the delete's outcome.  (When the
delete's `fetch` throws instead, the top-level `catch` replaces the
step-4 error with a 500 internal error — the counterexample.) -/
theorem compensating_delete_preserves_error
    (token owner repo content : String) (db : Option String) (now : Int)
    (oracle : Nat → GHOutcome)
    (htok : token ≠ "") (how : owner ≠ "") (hrp : repo ≠ "") (hct : content ≠ "")
    (st1 st2 st3 st4 st5 : Nat) (d1 d2 d3 d4 d5 : GHData)
    (h0 : oracle 0 = .resp st1 d1) (hok1 : respOk st1 = true)
    (h1 : oracle 1 = .resp st2 d2) (hok2 : respOk st2 = true)
    (h2 : oracle 2 = .resp st3 d3)
    (h3 : oracle 3 = .resp st4 d4) (hnok4 : respOk st4 = false)
    (h4 : oracle 4 = .resp st5 d5) :
    (handler "POST" (some token) (.parsed ⟨some owner, some repo, some content, db⟩)
        now oracle).response =
      { statusCode := st4, error := some "Failed to update README file" } ∧
    (handler "POST" (some token) (.parsed ⟨some owner, some repo, some content, db⟩)
        now oracle).requests =
      [⟨"GET", "https://api.github.com/repos/" ++ owner ++ "/" ++ repo ++
          "/git/ref/heads/" ++ jsOrStr db "main"⟩,
       ⟨"POST", "https://api.github.com/repos/" ++ owner ++ "/" ++ repo ++ "/git/refs"⟩,
       ⟨"GET", "https://api.github.com/repos/" ++ owner ++ "/" ++ repo ++
          "/contents/README.md?ref=readme-update-" ++ toString now⟩,
       ⟨"PUT", "https://api.github.com/repos/" ++ owner ++ "/" ++ repo ++
          "/contents/README.md"⟩,
       ⟨"DELETE", "https://api.github.com/repos/" ++ owner ++ "/" ++ repo ++
          "/git/refs/heads/readme-update-" ++ toString now⟩] := by
  simp [handler, jsStrTruthy, htok, how, hrp, hct, h0, h1, h2, h3, h4,
    hok1, hok2, hnok4, jsOrStr, String.append_assoc]
  refine ⟨?_, ?_⟩
  · have hs : ("/contents/README.md?ref=" : String) ++ ("readme-update-" ++ toString now) =
        "/contents/README.md?ref=readme-update-" ++ toString now := by
      rw [← String.append_assoc]
      exact congrArg (fun z => z ++ toString now) (by decide)
    rw [hs]
  · have hs : ("/git/refs/heads/" : String) ++ ("readme-update-" ++ toString now) =
        "/git/refs/heads/readme-update-" ++ toString now := by
      rw [← String.append_assoc]
      exact congrArg (fun z => z ++ toString now) (by decide)
    rw [hs]

/-- Oracle for the run where step 4 fails with a 422 response and the
compensating delete completes with a 204 response. -/
def c1RespOracle : Nat → GHOutcome
  | 0 => .resp 200 { objectSha := "abc123" }
  | 1 => .resp 201 {}
  | 2 => .resp 404 {}
  | 3 => .resp 422 {}
  | _ => .resp 204 {}

/-- C1 amended witness: in the concrete run, the DELETE for
`readme-update-123` is issued and the caller still receives the step-4
error (`422 / Failed to update README file`), not the delete's outcome. -/
theorem compensating_delete_preserves_error_witness :
    (handler "POST" (some "token123") (.parsed prOkBody) 123 c1RespOracle).response =
      { statusCode := 422, error := some "Failed to update README file" } ∧
    (handler "POST" (some "token123") (.parsed prOkBody) 123 c1RespOracle).requests =
      [⟨"GET", "https://api.github.com/repos/acme/widget/git/ref/heads/main"⟩,
       ⟨"POST", "https://api.github.com/repos/acme/widget/git/refs"⟩,
       ⟨"GET", "https://api.github.com/repos/acme/widget/contents/README.md?ref=readme-update-123"⟩,
       ⟨"PUT", "https://api.github.com/repos/acme/widget/contents/README.md"⟩,
       ⟨"DELETE", "https://api.github.com/repos/acme/widget/git/refs/heads/readme-update-123"⟩] :=
  compensating_delete_preserves_error "token123" "acme" "widget" "new readme"
    (some "main") 123 c1RespOracle (by decide) (by decide) (by decide) (by decide)
    200 201 404 422 204 { objectSha := "abc123" } {} {} {} {}
    rfl (by decide) rfl (by decide) rfl rfl (by decide) rfl

end ReadmeGen
